import Mathlib

/-!
# Verification of the geodrink geospatial core

Shallow embedding of the geodrink repository's geospatial engine:
* `overpass-api.ts` (geometry kernel, point classifier and filter, query
  orchestrator, filter presets) — namespace `Geodrink`;
* `cache-manager.ts` (spatial cache) — namespace `Geodrink.CacheManager`;
* `gpx-parser.ts` (track parser) — namespace `Geodrink.GpxParser`.

Modelling conventions:
* JavaScript numbers are idealised as real numbers (`ℝ`).  Accumulators the
  source initialises with `Infinity` are modelled in `EReal` (so `Infinity`
  is `⊤` and `Math.min(Infinity, d) = d` is `min ⊤ d = d`).
* In the track parser the special float values `NaN` / `Infinity` /
  `-Infinity` are observable (the source branches on `isNaN`), so there the
  numbers are modelled by `JSNum` = `nan | inf | negInf | fin ℝ`.
* JavaScript's `Number → string` conversion used inside template literals
  has no canonical real-number counterpart; it is passed around as an
  explicit parameter `numStr : ℝ → String`.  `Number.toFixed(4)` is modelled
  exactly (ECMA-262 round-half-up on the magnitude).
* Tag records (`Record<string, string>`) are modelled as
  `String → Option String`; `localStorage` as an association list.
-/

namespace Geodrink

open Real

/-- Axis-aligned bounding box `{north, south, east, west}` (degrees),
as in the `GPXData` TypeScript interface. -/
structure Bounds where
  north : ℝ
  south : ℝ
  east : ℝ
  west : ℝ

/-- `GPXData` from `types`: route polyline as ordered `[lon, lat]` pairs,
plus bounds and total length. -/
structure GPXData where
  name : Option String
  coordinates : List (ℝ × ℝ)
  bounds : Bounds
  totalDistance : ℝ

/-- `Math.atan2 y x` on real numbers (signed zeros and NaN are outside the
real-number model; `atan2 0 0 = 0` as for JS `+0`). -/
noncomputable def atan2 (y x : ℝ) : ℝ :=
  if 0 < x then Real.arctan (y / x)
  else if x < 0 then
    (if 0 ≤ y then Real.arctan (y / x) + π else Real.arctan (y / x) - π)
  else
    (if 0 < y then π / 2 else if y < 0 then -(π / 2) else 0)

/-- `calculateDistance` from `overpass-api.ts` (identical copy in
`gpx-parser.ts`): haversine great-circle distance, Earth radius 6371000 m. -/
noncomputable def calculateDistance (lat1 lon1 lat2 lon2 : ℝ) : ℝ :=
  let R : ℝ := 6371000
  let dLat := (lat2 - lat1) * π / 180
  let dLon := (lon2 - lon1) * π / 180
  let a := Real.sin (dLat / 2) * Real.sin (dLat / 2) +
      Real.cos (lat1 * π / 180) * Real.cos (lat2 * π / 180) *
        Real.sin (dLon / 2) * Real.sin (dLon / 2)
  let c := 2 * atan2 (Real.sqrt a) (Real.sqrt (1 - a))
  R * c

open Classical in
/-- `getClosestPointOnSegment` from `overpass-api.ts`: orthogonal projection
of `point` onto the segment, with the parameter clamped to `[0, 1]`; the
inputs are `[x, y] = [lon, lat]` pairs. -/
noncomputable def getClosestPointOnSegment
    (point segmentStart segmentEnd : ℝ × ℝ) : ℝ × ℝ :=
  let px := point.1
  let py := point.2
  let ax := segmentStart.1
  let ay := segmentStart.2
  let bx := segmentEnd.1
  let bY := segmentEnd.2
  let dx := bx - ax
  let dy := bY - ay
  if dx = 0 ∧ dy = 0 then segmentStart
  else
    let t := max 0 (min 1 (((px - ax) * dx + (py - ay) * dy) / (dx * dx + dy * dy)))
    (ax + t * dx, ay + t * dy)

/-- `calculateDistanceFromStart`: great-circle distance from the route's
first coordinate (`0` for an empty route). -/
noncomputable def calculateDistanceFromStart (lat lon : ℝ) (gpxData : GPXData) : ℝ :=
  match gpxData.coordinates with
  | [] => 0
  | startPoint :: _ => calculateDistance startPoint.2 startPoint.1 lat lon

/-- `calculateMinDistanceFromRoute`: minimum great-circle distance from the
point to any route *vertex*.  The source starts the accumulator at
`Infinity` and takes `Math.min`, hence the `EReal` value (`⊤` = `Infinity`,
returned unchanged for an empty route). -/
noncomputable def calculateMinDistanceFromRoute (lat lon : ℝ) (gpxData : GPXData) : EReal :=
  gpxData.coordinates.foldl
    (fun minDistance coord =>
      min minDistance ((calculateDistance coord.2 coord.1 lat lon : ℝ) : EReal))
    ⊤

open Classical in
/-- `findDistanceAlongRoute`: scan all consecutive segments for the closest
projected point (strict improvement, so the first segment wins ties), then
return the cumulative great-circle length up to that projection.  The scan
state is (minDistance, closestSegmentIndex, closestPointOnSegment),
initially `(Infinity, 0, [0, 0])` as in the source. -/
noncomputable def findDistanceAlongRoute (lat lon : ℝ) (gpxData : GPXData) : ℝ :=
  if gpxData.coordinates.length = 0 then 0
  else
    let scan := (List.range (gpxData.coordinates.length - 1)).foldl
      (fun (st : EReal × ℕ × (ℝ × ℝ)) i =>
        let segmentStart := gpxData.coordinates.getD i (0, 0)
        let segmentEnd := gpxData.coordinates.getD (i + 1) (0, 0)
        let closestPoint := getClosestPointOnSegment (lon, lat) segmentStart segmentEnd
        let distance := calculateDistance lat lon closestPoint.2 closestPoint.1
        if ((distance : ℝ) : EReal) < st.1 then (((distance : ℝ) : EReal), i, closestPoint)
        else st)
      (⊤, 0, (0, 0))
    let closestSegmentIndex := scan.2.1
    let closestPointOnSegment := scan.2.2
    let distanceAlongRoute := (List.range closestSegmentIndex).foldl
      (fun d i =>
        let p := gpxData.coordinates.getD i (0, 0)
        let q := gpxData.coordinates.getD (i + 1) (0, 0)
        d + calculateDistance p.2 p.1 q.2 q.1)
      0
    distanceAlongRoute + calculateDistance
      (gpxData.coordinates.getD closestSegmentIndex (0, 0)).2
      (gpxData.coordinates.getD closestSegmentIndex (0, 0)).1
      closestPointOnSegment.2 closestPointOnSegment.1

/-- A raw record's tag mapping (`Record<string, string>`): `none` is an
absent key (`undefined`). -/
def Tags : Type := String → Option String

/-- The closed set of classified types, `WaterPoint['type']`. -/
inductive WaterPointType where
  | fountain
  | well
  | spring
  | tap
  | other
deriving DecidableEq

/-- `WaterPoint` from `types`.  `distanceFromRoute` comes from the
`Infinity`-seeded vertex minimum, hence `EReal`. -/
structure WaterPoint where
  id : String
  lat : ℝ
  lon : ℝ
  tags : Tags
  distanceFromStart : ℝ
  distanceFromRoute : EReal
  type : WaterPointType

/-- The optional rule fields of `WaterFilterPreset.filters`. -/
structure WaterFilters where
  drinking_water : Option (List String)
  exclude_tags : Option (List String)
  include_types : Option (List String)
  access : Option (List String)
deriving DecidableEq, Inhabited

/-- `WaterFilterPreset` from `types`. -/
structure WaterFilterPreset where
  id : String
  name : String
  description : String
  filters : WaterFilters
deriving DecidableEq, Inhabited

/-- First preset of `WATER_FILTER_PRESETS` ("potable-only"). -/
def potableOnlyPreset : WaterFilterPreset :=
  { id := "potable-only"
    name := "Potable Water Only"
    description := "Safe drinking water sources only"
    filters :=
      { drinking_water := some ["yes"]
        exclude_tags := some ["fee=yes"]
        include_types := none
        access := none } }

/-- Second preset ("free-potable"). -/
def freePotablePreset : WaterFilterPreset :=
  { id := "free-potable"
    name := "Free Potable Water"
    description := "Free drinking water only"
    filters :=
      { drinking_water := some ["yes"]
        exclude_tags := some ["fee=yes"]
        include_types := none
        access := none } }

/-- Third preset ("all-potable"). -/
def allPotablePreset : WaterFilterPreset :=
  { id := "all-potable"
    name := "All Potable Water"
    description := "All drinking water (including paid)"
    filters :=
      { drinking_water := some ["yes"]
        exclude_tags := none
        include_types := none
        access := none } }

/-- Fourth preset ("emergency-sources"). -/
def emergencySourcesPreset : WaterFilterPreset :=
  { id := "emergency-sources"
    name := "Emergency Sources"
    description := "All water sources including wells/springs"
    filters :=
      { drinking_water := none
        exclude_tags := none
        include_types := some ["fountain", "well", "spring", "tap"]
        access := some ["public", "yes"] } }

/-- Fifth preset ("all-sources"). -/
def allSourcesPreset : WaterFilterPreset :=
  { id := "all-sources"
    name := "All Water Sources"
    description := "All water points (including non-potable)"
    filters :=
      { drinking_water := none
        exclude_tags := none
        include_types := none
        access := none } }

/-- `WATER_FILTER_PRESETS` from `overpass-api.ts`, in source order. -/
def WATER_FILTER_PRESETS : List WaterFilterPreset :=
  [potableOnlyPreset, freePotablePreset, allPotablePreset,
   emergencySourcesPreset, allSourcesPreset]

/-- A raw Overpass element record (`type`, `lat`, `lon`, `tags`, `id`). -/
structure OsmElement where
  type : String
  id : ℤ
  lat : ℝ
  lon : ℝ
  tags : Tags

/-- The type-classification chain at the top of `processWaterPoint`
(first match wins, default `other`). -/
def waterPointType (tags : Tags) : WaterPointType :=
  if tags "amenity" = some "drinking_water" then .fountain
  else if tags "amenity" = some "fountain" then .fountain
  else if tags "amenity" = some "water_point" then .tap
  else if tags "amenity" = some "water_tap" then .tap
  else if tags "man_made" = some "water_well" then .well
  else if tags "natural" = some "spring" then .spring
  else .other

/-- The `exclude_tags` loop of `processWaterPoint`: a rule `"key=value"` is
split at `=`; the record is rejected when `tags[key] === value`.  (When a
rule has no `=`, `value` is `undefined`, which in JS compares equal to an
absent tag — hence the `Option`-level equality.) -/
def excludeTagsReject (filters : WaterFilters) (tags : Tags) : Bool :=
  match filters.exclude_tags with
  | none => false
  | some excludeTags =>
    excludeTags.any fun excludeTag =>
      let parts := excludeTag.splitOn "="
      tags (parts.getD 0 "") == parts.get? 1

/-- The access check of `processWaterPoint`: runs only when the preset has
an access list *and* `tags.access` is truthy (present and non-empty);
rejects when the value is not in the allow-list. -/
def accessReject (filters : WaterFilters) (tags : Tags) : Bool :=
  match filters.access with
  | none => false
  | some allowed =>
    match tags "access" with
    | none => false
    | some v => if v = "" then false else !(allowed.contains v)

/-- The drinking-water check of `processWaterPoint`: runs only when the
preset has a `drinking_water` list and the tag is truthy; rejects when the
value is not in the allow-list. -/
def drinkingWaterReject (filters : WaterFilters) (tags : Tags) : Bool :=
  match filters.drinking_water with
  | none => false
  | some allowed =>
    match tags "drinking_water" with
    | none => false
    | some v => if v = "" then false else !(allowed.contains v)

open Classical in
/-- `processWaterPoint` from `overpass-api.ts`: classify, compute the two
distances, then reject when the point is beyond the buffer or fails a
preset rule; otherwise build the `WaterPoint`. -/
noncomputable def processWaterPoint (element : OsmElement) (gpxData : GPXData)
    (bufferDistance : ℝ) (preset : WaterFilterPreset) : Option WaterPoint :=
  let tags := element.tags
  let type := waterPointType tags
  let distanceFromStart := calculateDistanceFromStart element.lat element.lon gpxData
  let distanceFromRoute := calculateMinDistanceFromRoute element.lat element.lon gpxData
  if ((bufferDistance : ℝ) : EReal) < distanceFromRoute then none
  else if excludeTagsReject preset.filters tags then none
  else if accessReject preset.filters tags then none
  else if drinkingWaterReject preset.filters tags then none
  else
    some
      { id := toString element.id
        lat := element.lat
        lon := element.lon
        tags := tags
        distanceFromStart := distanceFromStart
        distanceFromRoute := distanceFromRoute
        type := type }

/-- `buildOverpassQuery` from `overpass-api.ts`.  `numStr` is the ambient
JS number-to-string conversion used by the template literals. -/
noncomputable def buildOverpassQuery (numStr : ℝ → String) (gpxData : GPXData)
    (bufferDistance : ℝ) (preset : WaterFilterPreset) : String :=
  let bounds := gpxData.bounds
  let padding := bufferDistance / 111000
  let bbox := numStr (bounds.south - padding) ++ "," ++ numStr (bounds.west - padding)
      ++ "," ++ numStr (bounds.north + padding) ++ "," ++ numStr (bounds.east + padding)
  let queries : List String :=
    if (preset.filters.drinking_water.getD []).contains "yes" then
      [ "node[\"amenity\"=\"drinking_water\"][\"drinking_water\"!=\"no\"](" ++ bbox ++ ");",
        "node[\"amenity\"=\"fountain\"][\"drinking_water\"=\"yes\"](" ++ bbox ++ ");",
        "node[\"amenity\"=\"water_point\"][\"drinking_water\"=\"yes\"](" ++ bbox ++ ");",
        "node[\"amenity\"=\"water_tap\"][\"drinking_water\"=\"yes\"](" ++ bbox ++ ");" ]
    else
      [ "node[\"amenity\"=\"drinking_water\"](" ++ bbox ++ ");",
        "node[\"amenity\"=\"fountain\"](" ++ bbox ++ ");",
        "node[\"amenity\"=\"water_point\"](" ++ bbox ++ ");",
        "node[\"man_made\"=\"water_well\"](" ++ bbox ++ ");",
        "node[\"natural\"=\"spring\"](" ++ bbox ++ ");",
        "node[\"amenity\"=\"water_tap\"](" ++ bbox ++ ");" ]
  "\n    [out:json][timeout:30];\n    (\n      "
    ++ String.intercalate "\n      " queries
    ++ "\n    );\n    out geom;\n  "

namespace CacheManager

/-- A stored cache entry (`CacheEntry<T>` in `cache-manager.ts`).  The
source stores `bounds` JSON-serialised; serialisation is abstracted away
and the record is kept structured. -/
structure CacheEntry (V : Type) where
  data : V
  timestamp : ℤ
  bounds : Bounds
  bufferDistance : ℝ

/-- `localStorage`, restricted to this app's typed entries: an association
list with unique keys (maintained by `set`). -/
def Store (V : Type) : Type := List (String × CacheEntry V)

/-- `localStorage.getItem` on the store. -/
def lookupItem {V : Type} (store : Store V) (key : String) : Option (CacheEntry V) :=
  ((store : List (String × CacheEntry V)).find? fun kv => kv.1 == key).map fun kv => kv.2

/-- `localStorage.removeItem` on the store. -/
def removeItem {V : Type} (store : Store V) (key : String) : Store V :=
  (store : List (String × CacheEntry V)).filter fun kv => !(kv.1 == key)

/-- The 4-decimal rounding of `Number.prototype.toFixed(4)` (ECMA-262:
nearest multiple of `10^-4`, ties away from zero after the sign is split
off): the scaled integer for a nonnegative input. -/
noncomputable def toFixed4Int (x : ℝ) : ℤ := ⌊x * 10000 + 1 / 2⌋

/-- Digit string of a scaled nonnegative integer: `n = 480000` ↦
`"48.0000"` (integer part, dot, 4 zero-padded decimal digits). -/
def fixed4OfNat (n : ℕ) : String :=
  let frac := toString (n % 10000)
  toString (n / 10000) ++ "." ++
    String.mk (List.replicate (4 - frac.length) '0') ++ frac

/-- `x.toFixed(4)` for a real `x` (the source never hits the `≥ 10^21`
scientific-notation branch of `toFixed`). -/
noncomputable def toFixed4 (x : ℝ) : String :=
  if x < 0 then "-" ++ fixed4OfNat (toFixed4Int (-x)).toNat
  else fixed4OfNat (toFixed4Int x).toNat

/-- `CacheManager.generateCacheKey`: prefix + the four bounds fields at 4
decimals + buffer distance, joined by underscores. -/
noncomputable def generateCacheKey (numStr : ℝ → String) (bounds : Bounds)
    (bufferDistance : ℝ) : String :=
  let boundsStr := toFixed4 bounds.north ++ "_" ++ toFixed4 bounds.south ++ "_"
      ++ toFixed4 bounds.east ++ "_" ++ toFixed4 bounds.west
  "geodrink_cache_" ++ boundsStr ++ "_" ++ numStr bufferDistance

/-- `CacheManager.set`: store the payload with the current time as the
creation timestamp, overwriting any previous entry at the key. -/
def set {V : Type} (store : Store V) (key : String) (data : V) (bounds : Bounds)
    (bufferDistance : ℝ) (now : ℤ) : Store V :=
  (key, { data := data, timestamp := now, bounds := bounds,
          bufferDistance := bufferDistance }) :: removeItem store key

/-- `CacheManager.CACHE_DURATION`: one hour in milliseconds. -/
def CACHE_DURATION : ℤ := 60 * 60 * 1000

/-- `CacheManager.get`: absent if never set; if the entry is older than
`CACHE_DURATION` it is removed as a side effect and treated as absent;
otherwise the payload is returned.  The pair is (result, updated store). -/
def get {V : Type} (store : Store V) (key : String) (now : ℤ) :
    Option V × Store V :=
  match lookupItem store key with
  | none => (none, store)
  | some entry =>
    if CACHE_DURATION < now - entry.timestamp then (none, removeItem store key)
    else (some entry.data, store)

/-- `CacheManager.getCacheInfo`: `(totalEntries, totalSize)` over the keys
in this app's namespace.  `totalSize` sums serialised entry lengths, which
the embedding abstracts as a parameter `serLen`. -/
def getCacheInfo {V : Type} (serLen : CacheEntry V → ℕ) (store : Store V) : ℕ × ℕ :=
  (store : List (String × CacheEntry V)).foldl
    (fun acc kv =>
      if kv.1.startsWith "geodrink_cache_" then (acc.1 + 1, acc.2 + serLen kv.2)
      else acc)
    (0, 0)

end CacheManager

/-- The full cache key used by `findWaterPoints`:
`CacheManager.generateCacheKey(bounds, bufferDistance) + "_" + filterPreset`. -/
noncomputable def fullCacheKey (numStr : ℝ → String) (bounds : Bounds)
    (bufferDistance : ℝ) (filterPreset : String) : String :=
  CacheManager.generateCacheKey numStr bounds bufferDistance ++ "_" ++ filterPreset

/-- The preset lookup in `findWaterPoints`:
`WATER_FILTER_PRESETS.find(p => p.id === filterPreset) || WATER_FILTER_PRESETS[0]`. -/
def presetLookup (filterPreset : String) : WaterFilterPreset :=
  (WATER_FILTER_PRESETS.find? fun p => p.id == filterPreset).getD
    WATER_FILTER_PRESETS.headI

/-- The body of the remote response, as far as `findWaterPoints` observes
it: `malformed` models a `response.json()` that throws; `elements` is
`undefined` (`none`) or the list of element records. -/
inductive FetchBody where
  | malformed
  | parsed (elements : Option (List OsmElement))

/-- The outcome of the single `fetch` exchange: a rejected promise
(transport error) or a response with its `ok` flag and body. -/
inductive FetchOutcome where
  | transportError
  | response (ok : Bool) (body : FetchBody)

/-- The failure modes of claim C4: transport error, non-success status, or
malformed response body. -/
def FetchOutcome.fails : FetchOutcome → Prop
  | .transportError => True
  | .response _ .malformed => True
  | .response ok (.parsed _) => ok = false

open Classical in
/-- The element loop of `findWaterPoints`: keep `type === 'node'` elements
with truthy (non-zero) `lat` and `lon`, and collect the accepted
`processWaterPoint` results in order. -/
noncomputable def collectWaterPoints (elements : List OsmElement) (gpxData : GPXData)
    (bufferDistance : ℝ) (preset : WaterFilterPreset) : List WaterPoint :=
  elements.filterMap fun element =>
    if element.type = "node" ∧ element.lat ≠ 0 ∧ element.lon ≠ 0 then
      processWaterPoint element gpxData bufferDistance preset
    else none

open Classical in
/-- `waterPoints.sort((a, b) => a.distanceFromStart - b.distanceFromStart)`:
stable sort by ascending distance from start. -/
noncomputable def sortByDistanceFromStart (waterPoints : List WaterPoint) :
    List WaterPoint :=
  waterPoints.mergeSort fun a b => decide (a.distanceFromStart ≤ b.distanceFromStart)

open Classical in
/-- `findWaterPoints` from `overpass-api.ts`.  The ambient environment is
explicit: the storage state, the current time, and the outcome the single
`fetch` would produce.  The `try/catch` that maps any thrown error to `[]`
is modelled by the error branches returning `([], store)`.  (Source
defaults `bufferDistance = 15`, `filterPreset = 'potable-only'`.)
Returns (result list, updated storage). -/
noncomputable def findWaterPoints (numStr : ℝ → String)
    (store : CacheManager.Store (List WaterPoint)) (now : ℤ)
    (fetchOutcome : FetchOutcome) (gpxData : GPXData) (bufferDistance : ℝ)
    (filterPreset : String) :
    List WaterPoint × CacheManager.Store (List WaterPoint) :=
  let cacheKey := fullCacheKey numStr gpxData.bounds bufferDistance filterPreset
  match CacheManager.get store cacheKey now with
  | (some cachedData, store1) => (cachedData, store1)
  | (none, store1) =>
    let preset := presetLookup filterPreset
    let _query := buildOverpassQuery numStr gpxData bufferDistance preset
    match fetchOutcome with
    | .transportError => ([], store1)
    | .response ok body =>
      if ok then
        match body with
        | .malformed => ([], store1)
        | .parsed elementsOpt =>
          let waterPoints :=
            match elementsOpt with
            | none => []
            | some elements => collectWaterPoints elements gpxData bufferDistance preset
          let sortedWaterPoints := sortByDistanceFromStart waterPoints
          let store2 := CacheManager.set store1 cacheKey sortedWaterPoints
            gpxData.bounds bufferDistance now
          (sortedWaterPoints, store2)
      else ([], store1)

namespace GpxParser

/-- A JavaScript number as observed by the track parser, where `NaN` and
the infinities are distinguishable (`parseFloat` can produce any of them
and the source branches on `isNaN`). -/
inductive JSNum where
  | nan
  | inf
  | negInf
  | fin (x : ℝ)

/-- `Number.isNaN` / global `isNaN` on an already-parsed number. -/
def JSNum.isNaN : JSNum → Bool
  | .nan => true
  | _ => false

/-- `Math.min` on two JS numbers. -/
noncomputable def JSNum.min : JSNum → JSNum → JSNum
  | .nan, _ => .nan
  | _, .nan => .nan
  | .negInf, _ => .negInf
  | _, .negInf => .negInf
  | .inf, b => b
  | a, .inf => a
  | .fin a, .fin b => .fin (Min.min a b)

/-- `Math.max` on two JS numbers. -/
noncomputable def JSNum.max : JSNum → JSNum → JSNum
  | .nan, _ => .nan
  | _, .nan => .nan
  | .inf, _ => .inf
  | _, .inf => .inf
  | .negInf, b => b
  | a, .negInf => a
  | .fin a, .fin b => .fin (Max.max a b)

/-- `+` on two JS numbers. -/
def JSNum.add : JSNum → JSNum → JSNum
  | .nan, _ => .nan
  | _, .nan => .nan
  | .inf, .negInf => .nan
  | .negInf, .inf => .nan
  | .inf, _ => .inf
  | _, .inf => .inf
  | .negInf, _ => .negInf
  | _, .negInf => .negInf
  | .fin a, .fin b => .fin (a + b)

/-- The haversine `calculateDistance` lifted to JS numbers: with any
non-finite argument the angle differences, and hence the whole formula,
evaluate to `NaN` in JS. -/
noncomputable def calculateDistanceJS : JSNum → JSNum → JSNum → JSNum → JSNum
  | .fin lat1, .fin lon1, .fin lat2, .fin lon2 =>
    .fin (calculateDistance lat1 lon1 lat2 lon2)
  | _, _, _, _ => .nan

/-- One `<trkpt>`/`<rtept>` element, reduced to what the parser reads:
the values of `parseFloat(point.getAttribute('lat') || '0')` and the same
for `lon`.  (A missing or empty attribute therefore arrives as `fin 0`,
the parse of the `'0'` fallback.) -/
structure PointElem where
  lat : JSNum
  lon : JSNum

/-- A parsed XML document as far as `parseGPX` observes it: whether the DOM
parser reported an error, the track/route point elements in document
order, and the three candidate name texts. -/
structure GPXDoc where
  parserError : Bool
  trkpts : List PointElem
  rtepts : List PointElem
  trkName : Option String
  rteName : Option String
  metaName : Option String

/-- The point list `parseGPX` iterates: track points, or route points when
there are no track points. -/
def docPoints (doc : GPXDoc) : List PointElem :=
  if doc.trkpts.length > 0 then doc.trkpts else doc.rtepts

/-- Bounds with JS-number fields (they start at `±Infinity`). -/
structure JSBounds where
  north : JSNum
  south : JSNum
  east : JSNum
  west : JSNum

/-- The `GPXData` value produced by the parser, with JS-number fields. -/
structure ParsedGPX where
  name : Option String
  coordinates : List (JSNum × JSNum)
  bounds : JSBounds
  totalDistance : JSNum

/-- The body of the per-point `forEach` in `parseGPX`: keep the point iff
neither coordinate is `NaN`, appending `[lon, lat]` and updating the
running min/max.  State: (coordinates, minLat, maxLat, minLon, maxLon). -/
noncomputable def parseStep
    (acc : List (JSNum × JSNum) × JSNum × JSNum × JSNum × JSNum)
    (point : PointElem) : List (JSNum × JSNum) × JSNum × JSNum × JSNum × JSNum :=
  if !point.lat.isNaN && !point.lon.isNaN then
    (acc.1 ++ [(point.lon, point.lat)],
     JSNum.min acc.2.1 point.lat, JSNum.max acc.2.2.1 point.lat,
     JSNum.min acc.2.2.2.1 point.lon, JSNum.max acc.2.2.2.2 point.lon)
  else acc

/-- The whole `forEach` accumulation of `parseGPX`: state
(coordinates, minLat, maxLat, minLon, maxLon), seeded with
`([], Infinity, -Infinity, Infinity, -Infinity)` as in the source. -/
noncomputable def parseCoordsScan (doc : GPXDoc) :
    List (JSNum × JSNum) × JSNum × JSNum × JSNum × JSNum :=
  (docPoints doc).foldl parseStep ([], .inf, .negInf, .inf, .negInf)

/-- `parseGPX` from `gpx-parser.ts`.  `none` models the `null` of the
`catch` branch (XML error, no points of either kind, or no coordinate
surviving the NaN filter). -/
noncomputable def parseGPX (doc : GPXDoc) : Option ParsedGPX :=
  if doc.parserError then none
  else if doc.trkpts.length = 0 && doc.rtepts.length = 0 then none
  else if (parseCoordsScan doc).1.length = 0 then none
  else
    let coordinates := (parseCoordsScan doc).1
    let minLat := (parseCoordsScan doc).2.1
    let maxLat := (parseCoordsScan doc).2.2.1
    let minLon := (parseCoordsScan doc).2.2.2.1
    let maxLon := (parseCoordsScan doc).2.2.2.2
    let totalDistance := (List.range (coordinates.length - 1)).foldl
      (fun td i =>
        let p := coordinates.getD i (.nan, .nan)
        let q := coordinates.getD (i + 1) (.nan, .nan)
        JSNum.add td (calculateDistanceJS p.2 p.1 q.2 q.1))
      (.fin 0)
    let trackName := doc.trkName <|> doc.rteName <|> doc.metaName
    some
      { name := trackName
        coordinates := coordinates
        bounds :=
          { north := maxLat, south := minLat, east := maxLon, west := minLon }
        totalDistance := totalDistance }

end GpxParser

/-! ### Concrete inputs used by the claims -/

/-- Tag mapping `amenity=drinking_water, drinking_water=yes` (claim C1). -/
def tagsC1 : Tags := fun key =>
  if key = "amenity" then some "drinking_water"
  else if key = "drinking_water" then some "yes"
  else none

/-- Claim C1's raw node record at latitude `48.00005`, longitude `2.05`. -/
def elemC1 : OsmElement :=
  { type := "node", id := 1, lat := 48.00005, lon := 2.05, tags := tagsC1 }

/-- Claim C1's route `[(2.0, 48.0), (2.1, 48.0)]` ((lon, lat) pairs) with its
tight bounds.  (`totalDistance` is not read by the functions under study.) -/
def gpxC1 : GPXData :=
  { name := none
    coordinates := [(2, 48), (2.1, 48)]
    bounds := { north := 48, south := 48, east := 2.1, west := 2 }
    totalDistance := 0 }

/-- Claim C2's document: three valid track points and one whose `lat`
attribute is non-numeric (`parseFloat` gives `NaN`); the bad point's `lon`
(2.0) would have widened the bounding box had it been counted. -/
def docC2 : GpxParser.GPXDoc :=
  { parserError := false
    trkpts :=
      [ { lat := .fin 48.1, lon := .fin 2.1 },
        { lat := .nan, lon := .fin 2.0 },
        { lat := .fin 48.2, lon := .fin 2.2 },
        { lat := .fin 48.3, lon := .fin 2.05 } ]
    rtepts := []
    trkName := none, rteName := none, metaName := none }

/-- A document with one valid point and one whose `lat` attribute is the
string `"Infinity"` (`parseFloat` gives `Infinity`, which is not finite but
also not `NaN`). -/
def docInfC2 : GpxParser.GPXDoc :=
  { parserError := false
    trkpts :=
      [ { lat := .fin 48.1, lon := .fin 2.1 },
        { lat := .inf, lon := .fin 2.2 } ]
    rtepts := []
    trkName := none, rteName := none, metaName := none }

/-- Claim C3 counterexample, first box: `north = 48.00004`. -/
def boundsC3a : Bounds := { north := 48.00004, south := 48, east := 2.1, west := 2 }

/-- Claim C3 counterexample, second box: differs from `boundsC3a` only in
the 5th decimal of `north` (`48.00006`), across the `toFixed(4)` rounding
boundary. -/
def boundsC3b : Bounds := { north := 48.00006, south := 48, east := 2.1, west := 2 }

/-- Claim C3 witness pair, first box: `north = 48.00001`. -/
def boundsC3c : Bounds := { north := 48.00001, south := 48, east := 2.1, west := 2 }

/-- Claim C3 witness pair, second box: differs only in the 5th decimal of
`north` (`48.00004`), on the same side of the rounding boundary. -/
def boundsC3d : Bounds := { north := 48.00004, south := 48, east := 2.1, west := 2 }

/-- A record carrying only `access=private` (claim C6 witness). -/
def tagsAccessPrivate : Tags := fun key =>
  if key = "access" then some "private" else none

/-- A record carrying only `drinking_water=no` (claim C6 witness). -/
def tagsDwNo : Tags := fun key =>
  if key = "drinking_water" then some "no" else none

/-- A record with no tags at all. -/
def tagsNone : Tags := fun _ => none

/-- A one-vertex route at (lon 2, lat 48) (claims C4/C8 witnesses). -/
def gpxC8 : GPXData :=
  { name := none
    coordinates := [(2, 48)]
    bounds := { north := 48, south := 48, east := 2, west := 2 }
    totalDistance := 0 }

/-- An untagged node element sitting exactly on `gpxC8`'s vertex. -/
def elemC8 : OsmElement :=
  { type := "node", id := 7, lat := 48, lon := 2, tags := tagsNone }

/-- The water point `processWaterPoint` produces for `elemC8` on `gpxC8`. -/
def wpC8 : WaterPoint :=
  { id := "7", lat := 48, lon := 2, tags := tagsNone
    distanceFromStart := 0, distanceFromRoute := ((0 : ℝ) : EReal)
    type := .other }

/-! ## Theorems -/

/-- The explicit formula of `calculateDistance` (let-expansion). -/
theorem calculateDistance_eq (lat1 lon1 lat2 lon2 : ℝ) :
    calculateDistance lat1 lon1 lat2 lon2 =
      6371000 * (2 * atan2
        (Real.sqrt (Real.sin ((lat2 - lat1) * π / 180 / 2) *
            Real.sin ((lat2 - lat1) * π / 180 / 2) +
          Real.cos (lat1 * π / 180) * Real.cos (lat2 * π / 180) *
            Real.sin ((lon2 - lon1) * π / 180 / 2) *
            Real.sin ((lon2 - lon1) * π / 180 / 2)))
        (Real.sqrt (1 - (Real.sin ((lat2 - lat1) * π / 180 / 2) *
            Real.sin ((lat2 - lat1) * π / 180 / 2) +
          Real.cos (lat1 * π / 180) * Real.cos (lat2 * π / 180) *
            Real.sin ((lon2 - lon1) * π / 180 / 2) *
            Real.sin ((lon2 - lon1) * π / 180 / 2))))) := rfl

/-- C7: the result of `getClosestPointOnSegment` lies on the segment — it
equals `segmentStart + t • (segmentEnd − segmentStart)` for some
`t ∈ [0, 1]` — and for a zero-length segment it is the segment's single
point. -/
theorem claim_C7 :
    (∀ point segmentStart segmentEnd : ℝ × ℝ, ∃ t : ℝ, 0 ≤ t ∧ t ≤ 1 ∧
      getClosestPointOnSegment point segmentStart segmentEnd =
        (segmentStart.1 + t * (segmentEnd.1 - segmentStart.1),
         segmentStart.2 + t * (segmentEnd.2 - segmentStart.2))) ∧
    (∀ point segmentStart : ℝ × ℝ,
      getClosestPointOnSegment point segmentStart segmentStart = segmentStart) := by
  constructor
  · intro p a b
    by_cases h : b.1 - a.1 = 0 ∧ b.2 - a.2 = 0
    · refine ⟨0, le_refl 0, zero_le_one, ?_⟩
      simp only [getClosestPointOnSegment, if_pos h]
      simp
    · refine ⟨max 0 (min 1 (((p.1 - a.1) * (b.1 - a.1) + (p.2 - a.2) * (b.2 - a.2)) /
          ((b.1 - a.1) * (b.1 - a.1) + (b.2 - a.2) * (b.2 - a.2)))),
        le_max_left 0 _, max_le zero_le_one (min_le_left 1 _), ?_⟩
      simp only [getClosestPointOnSegment, if_neg h]
  · intro p a
    simp only [getClosestPointOnSegment]
    rw [if_pos ⟨sub_self a.1, sub_self a.2⟩]

/-- C10: on a route with exactly one coordinate the segment scan never
runs, the closest-point accumulator keeps its initial `[0, 0]`, and
`findDistanceAlongRoute` returns the great-circle distance from the route's
single coordinate to latitude 0, longitude 0 — independent of the query
point. -/
theorem claim_C10 (lat lon : ℝ) (c : ℝ × ℝ) (name : Option String)
    (bounds : Bounds) (totalDistance : ℝ) :
    findDistanceAlongRoute lat lon
        { name := name, coordinates := [c], bounds := bounds,
          totalDistance := totalDistance } =
      calculateDistance c.2 c.1 0 0 := by
  simp [findDistanceAlongRoute]

/-- `processWaterPoint` reads the preset only through its `filters` field. -/
theorem processWaterPoint_filters_congr {p q : WaterFilterPreset}
    (h : p.filters = q.filters) (element : OsmElement) (gpxData : GPXData)
    (bufferDistance : ℝ) :
    processWaterPoint element gpxData bufferDistance p =
      processWaterPoint element gpxData bufferDistance q := by
  unfold processWaterPoint
  rw [h]

/-- `buildOverpassQuery` reads the preset only through its `filters` field. -/
theorem buildOverpassQuery_filters_congr {p q : WaterFilterPreset}
    (h : p.filters = q.filters) (numStr : ℝ → String) (gpxData : GPXData)
    (bufferDistance : ℝ) :
    buildOverpassQuery numStr gpxData bufferDistance p =
      buildOverpassQuery numStr gpxData bufferDistance q := by
  unfold buildOverpassQuery
  rw [h]

/-- C9: the presets with ids `potable-only` and `free-potable` carry
identical rule sets, so filtering any record yields the same outcome under
either, and both build the identical remote query. -/
theorem claim_C9 :
    (presetLookup "potable-only").filters = (presetLookup "free-potable").filters ∧
    (∀ (element : OsmElement) (gpxData : GPXData) (bufferDistance : ℝ),
      processWaterPoint element gpxData bufferDistance (presetLookup "potable-only") =
        processWaterPoint element gpxData bufferDistance (presetLookup "free-potable")) ∧
    (∀ (numStr : ℝ → String) (gpxData : GPXData) (bufferDistance : ℝ),
      buildOverpassQuery numStr gpxData bufferDistance (presetLookup "potable-only") =
        buildOverpassQuery numStr gpxData bufferDistance (presetLookup "free-potable")) := by
  have h : (presetLookup "potable-only").filters = (presetLookup "free-potable").filters := by
    decide
  exact ⟨h, fun e g buf => processWaterPoint_filters_congr h e g buf,
    fun ns g buf => buildOverpassQuery_filters_congr h ns g buf⟩

/-- C6: the access rule rejects only a record that carries a (truthy)
access tag whose value is outside the preset's allow-list, and a record
with no access tag is never rejected by it; symmetrically for the
drinking-water (potability) rule. -/
theorem claim_C6 (preset : WaterFilterPreset) (tags : Tags) :
    (accessReject preset.filters tags = true →
      preset.filters.access.isSome = true ∧ (tags "access").isSome = true ∧
        (preset.filters.access.getD []).contains ((tags "access").getD "") = false) ∧
    (tags "access" = none → accessReject preset.filters tags = false) ∧
    (drinkingWaterReject preset.filters tags = true →
      preset.filters.drinking_water.isSome = true ∧
        (tags "drinking_water").isSome = true ∧
        (preset.filters.drinking_water.getD []).contains
          ((tags "drinking_water").getD "") = false) ∧
    (tags "drinking_water" = none →
      drinkingWaterReject preset.filters tags = false) := by
  refine ⟨?_, ?_, ?_, ?_⟩
  · intro h
    unfold accessReject at h
    rcases ha : preset.filters.access with _ | allowed
    · rw [ha] at h; exact absurd h (by simp)
    · rw [ha] at h
      rcases ht : tags "access" with _ | v
      · rw [ht] at h; exact absurd h (by simp)
      · rw [ht] at h
        have h' : (if v = "" then false else !(allowed.contains v)) = true := h
        by_cases hv : v = ""
        · rw [if_pos hv] at h'; exact absurd h' (by simp)
        · rw [if_neg hv] at h'
          exact ⟨rfl, rfl, by simpa using h'⟩
  · intro ht
    unfold accessReject
    rcases preset.filters.access with _ | allowed
    · rfl
    · rw [ht]
  · intro h
    unfold drinkingWaterReject at h
    rcases ha : preset.filters.drinking_water with _ | allowed
    · rw [ha] at h; exact absurd h (by simp)
    · rw [ha] at h
      rcases ht : tags "drinking_water" with _ | v
      · rw [ht] at h; exact absurd h (by simp)
      · rw [ht] at h
        have h' : (if v = "" then false else !(allowed.contains v)) = true := h
        by_cases hv : v = ""
        · rw [if_pos hv] at h'; exact absurd h' (by simp)
        · rw [if_neg hv] at h'
          exact ⟨rfl, rfl, by simpa using h'⟩
  · intro ht
    unfold drinkingWaterReject
    rcases preset.filters.drinking_water with _ | allowed
    · rfl
    · rw [ht]

/-- Witness for C6 at concrete inputs: the emergency preset rejects
`access=private` (tag present, value outside the allow-list), the
potable-only preset rejects `drinking_water=no`, and a record carrying
neither tag is rejected by neither rule. -/
theorem claim_C6_witness :
    (emergencySourcesPreset.filters.access.isSome = true ∧
      (tagsAccessPrivate "access").isSome = true ∧
      (emergencySourcesPreset.filters.access.getD []).contains
        ((tagsAccessPrivate "access").getD "") = false) ∧
    (potableOnlyPreset.filters.drinking_water.isSome = true ∧
      (tagsDwNo "drinking_water").isSome = true ∧
      (potableOnlyPreset.filters.drinking_water.getD []).contains
        ((tagsDwNo "drinking_water").getD "") = false) ∧
    accessReject potableOnlyPreset.filters tagsNone = false ∧
    drinkingWaterReject potableOnlyPreset.filters tagsNone = false :=
  ⟨(claim_C6 emergencySourcesPreset tagsAccessPrivate).1 rfl,
   (claim_C6 potableOnlyPreset tagsDwNo).2.2.1 rfl,
   (claim_C6 potableOnlyPreset tagsNone).2.1 rfl,
   (claim_C6 potableOnlyPreset tagsNone).2.2.2 rfl⟩

/-- `getCacheInfo`'s entry count is the number of stored keys in the
`geodrink_cache_` namespace. -/
theorem getCacheInfo_fst {V : Type} (serLen : CacheManager.CacheEntry V → ℕ)
    (store : CacheManager.Store V) :
    (CacheManager.getCacheInfo serLen store).1 =
      (store : List (String × CacheManager.CacheEntry V)).countP
        (fun kv => kv.1.startsWith "geodrink_cache_") := by
  have key : ∀ (l : List (String × CacheManager.CacheEntry V)) (acc : ℕ × ℕ),
      (l.foldl
        (fun acc kv =>
          if kv.1.startsWith "geodrink_cache_" then (acc.1 + 1, acc.2 + serLen kv.2)
          else acc)
        acc).1 =
      acc.1 + l.countP (fun kv => kv.1.startsWith "geodrink_cache_") := by
    intro l
    induction l with
    | nil => intro acc; simp
    | cons hd tl ih =>
      intro acc
      by_cases h : hd.1.startsWith "geodrink_cache_" = true
      · simp only [List.foldl_cons, List.countP_cons, h, if_pos h, if_true, ih]
        omega
      · simp only [List.foldl_cons, List.countP_cons, if_neg h, ih]
        simp [h]
  unfold CacheManager.getCacheInfo
  simpa using key store (0, 0)

/-- Removing a key twice is the same as removing it once, and
`set` followed by `removeItem` at the same key restores `removeItem` of
the original store. -/
theorem removeItem_set {V : Type} (store : CacheManager.Store V) (k : String)
    (v : V) (bounds : Bounds) (bufferDistance : ℝ) (now : ℤ) :
    CacheManager.removeItem (CacheManager.set store k v bounds bufferDistance now) k =
      CacheManager.removeItem store k := by
  unfold CacheManager.set CacheManager.removeItem
  simp [List.filter_filter]

/-- C5: a `set` followed by a `get` at most one hour later returns the
stored value unchanged; once strictly more than one hour has elapsed the
`get` returns absent, the entry is deleted from storage, and it no longer
counts in `getCacheInfo`'s entry count. -/
theorem claim_C5 {V : Type} (store : CacheManager.Store V) (k : String) (v : V)
    (bounds : Bounds) (bufferDistance : ℝ) (tSet tGet : ℤ) :
    (tGet - tSet ≤ CacheManager.CACHE_DURATION →
      CacheManager.get (CacheManager.set store k v bounds bufferDistance tSet) k tGet =
        (some v, CacheManager.set store k v bounds bufferDistance tSet)) ∧
    (CacheManager.CACHE_DURATION < tGet - tSet →
      CacheManager.get (CacheManager.set store k v bounds bufferDistance tSet) k tGet =
          (none, CacheManager.removeItem store k) ∧
        CacheManager.lookupItem (CacheManager.removeItem store k) k = none ∧
        ∀ serLen : CacheManager.CacheEntry V → ℕ,
          (CacheManager.getCacheInfo serLen (CacheManager.removeItem store k)).1 +
              (if k.startsWith "geodrink_cache_" then 1 else 0) =
            (CacheManager.getCacheInfo serLen
              (CacheManager.set store k v bounds bufferDistance tSet)).1) := by
  have hlook : CacheManager.lookupItem
      (CacheManager.set store k v bounds bufferDistance tSet) k =
      some { data := v, timestamp := tSet, bounds := bounds,
             bufferDistance := bufferDistance } := by
    unfold CacheManager.lookupItem CacheManager.set
    rw [List.find?_cons_of_pos _ (by simp)]
    rfl
  constructor
  · intro h
    unfold CacheManager.get
    rw [hlook]
    simp only [if_neg (not_lt.mpr h)]
  · intro h
    refine ⟨?_, ?_, ?_⟩
    · unfold CacheManager.get
      rw [hlook]
      simp only [if_pos h]
      rw [removeItem_set]
    · unfold CacheManager.lookupItem CacheManager.removeItem
      rw [Option.map_eq_none', List.find?_eq_none]
      intro kv hkv
      rw [List.mem_filter] at hkv
      simpa using hkv.2
    · intro serLen
      rw [getCacheInfo_fst, getCacheInfo_fst]
      unfold CacheManager.set
      rw [List.countP_cons]

/-- Witness for C5: on an empty store, `set` at time 0 then `get` at time 0
returns the value; `get` at time 3600001 (one hour and a millisecond)
returns absent. -/
theorem claim_C5_witness :
    CacheManager.get
        (CacheManager.set ([] : CacheManager.Store ℕ) "geodrink_cache_k" 5
          { north := 0, south := 0, east := 0, west := 0 } 0 0)
        "geodrink_cache_k" 0 =
      (some 5,
        CacheManager.set ([] : CacheManager.Store ℕ) "geodrink_cache_k" 5
          { north := 0, south := 0, east := 0, west := 0 } 0 0) ∧
    (CacheManager.get
        (CacheManager.set ([] : CacheManager.Store ℕ) "geodrink_cache_k" 5
          { north := 0, south := 0, east := 0, west := 0 } 0 0)
        "geodrink_cache_k" 3600001).1 = none :=
  ⟨(claim_C5 [] "geodrink_cache_k" 5
      { north := 0, south := 0, east := 0, west := 0 } 0 0 0).1 (by decide),
   by
    rw [((claim_C5 [] "geodrink_cache_k" 5
      { north := 0, south := 0, east := 0, west := 0 } 0 0 3600001).2 (by decide)).1]⟩

/-- `toFixed4` through a computed floor value (nonnegative input). -/
theorem toFixed4_of_floor (x : ℝ) (n : ℕ) (hx : ¬x < 0)
    (h : ⌊x * 10000 + 1 / 2⌋ = (n : ℤ)) :
    CacheManager.toFixed4 x = CacheManager.fixed4OfNat n := by
  unfold CacheManager.toFixed4 CacheManager.toFixed4Int
  rw [if_neg hx, h]
  simp

/-- `(48.00004).toFixed(4) = "48.0000"`. -/
theorem toFixed4_48_00004 : CacheManager.toFixed4 (48.00004 : ℝ) = "48.0000" := by
  rw [toFixed4_of_floor _ 480000 (by norm_num)
    (by rw [Int.floor_eq_iff]; push_cast; norm_num)]
  decide

/-- `(48.00006).toFixed(4) = "48.0001"`: the 5th-decimal difference crosses
the rounding boundary. -/
theorem toFixed4_48_00006 : CacheManager.toFixed4 (48.00006 : ℝ) = "48.0001" := by
  rw [toFixed4_of_floor _ 480001 (by norm_num)
    (by rw [Int.floor_eq_iff]; push_cast; norm_num)]
  decide

/-- `(48.00001).toFixed(4) = "48.0000"`. -/
theorem toFixed4_48_00001 : CacheManager.toFixed4 (48.00001 : ℝ) = "48.0000" := by
  rw [toFixed4_of_floor _ 480000 (by norm_num)
    (by rw [Int.floor_eq_iff]; push_cast; norm_num)]
  decide

/-- `(48).toFixed(4) = "48.0000"`. -/
theorem toFixed4_48 : CacheManager.toFixed4 (48 : ℝ) = "48.0000" := by
  rw [toFixed4_of_floor _ 480000 (by norm_num)
    (by rw [Int.floor_eq_iff]; push_cast; norm_num)]
  decide

/-- `(2.1).toFixed(4) = "2.1000"`. -/
theorem toFixed4_2_1 : CacheManager.toFixed4 (2.1 : ℝ) = "2.1000" := by
  rw [toFixed4_of_floor _ 21000 (by norm_num)
    (by rw [Int.floor_eq_iff]; push_cast; norm_num)]
  decide

/-- `(2).toFixed(4) = "2.0000"`. -/
theorem toFixed4_2 : CacheManager.toFixed4 (2 : ℝ) = "2.0000" := by
  rw [toFixed4_of_floor _ 20000 (by norm_num)
    (by rw [Int.floor_eq_iff]; push_cast; norm_num)]
  decide

/-- C3 counterexample: two bounding boxes that differ only in the 5th
decimal of `north` (48.00004 vs 48.00006) with the same buffer and filter
id derive *different* cache keys, because `toFixed(4)` rounds them to
different 4-decimal strings. -/
theorem claim_C3_counterexample :
    fullCacheKey (fun _ => "100") boundsC3a 100 "potable-only" ≠
      fullCacheKey (fun _ => "100") boundsC3b 100 "potable-only" := by
  unfold fullCacheKey CacheManager.generateCacheKey boundsC3a boundsC3b
  simp only [toFixed4_48_00004, toFixed4_48_00006, toFixed4_48, toFixed4_2_1,
    toFixed4_2]
  decide

/-- C3 amended: the cache key depends on the bounds only through the
4-decimal `toFixed` strings of the four fields, so two boxes whose fields
all round to the same 4-decimal representation (with equal buffer and
filter id) derive the same key. -/
theorem claim_C3_amended (numStr : ℝ → String) (b1 b2 : Bounds)
    (bufferDistance : ℝ) (filterId : String)
    (hn : CacheManager.toFixed4 b1.north = CacheManager.toFixed4 b2.north)
    (hs : CacheManager.toFixed4 b1.south = CacheManager.toFixed4 b2.south)
    (he : CacheManager.toFixed4 b1.east = CacheManager.toFixed4 b2.east)
    (hw : CacheManager.toFixed4 b1.west = CacheManager.toFixed4 b2.west) :
    fullCacheKey numStr b1 bufferDistance filterId =
      fullCacheKey numStr b2 bufferDistance filterId := by
  unfold fullCacheKey CacheManager.generateCacheKey
  rw [hn, hs, he, hw]

/-- Witness for C3 amended: 48.00001 and 48.00004 differ only in the 5th
decimal and round to the same 4-decimal string, so the keys agree. -/
theorem claim_C3_amended_witness :
    fullCacheKey (fun _ => "100") boundsC3c 100 "potable-only" =
      fullCacheKey (fun _ => "100") boundsC3d 100 "potable-only" :=
  claim_C3_amended (fun _ => "100") boundsC3c boundsC3d 100 "potable-only"
    (by rw [show boundsC3c.north = (48.00001 : ℝ) from rfl,
          show boundsC3d.north = (48.00004 : ℝ) from rfl,
          toFixed4_48_00001, toFixed4_48_00004])
    rfl rfl rfl

/-- The coordinate component of the parser's fold: exactly the points with
non-`NaN` latitude and longitude, in order, as `(lon, lat)` pairs. -/
theorem parseScan_coords (points : List GpxParser.PointElem) :
    ∀ acc : List (GpxParser.JSNum × GpxParser.JSNum) × GpxParser.JSNum ×
      GpxParser.JSNum × GpxParser.JSNum × GpxParser.JSNum,
    (points.foldl GpxParser.parseStep acc).1 =
      acc.1 ++ (points.filter
        (fun p => !p.lat.isNaN && !p.lon.isNaN)).map (fun p => (p.lon, p.lat)) := by
  induction points with
  | nil => intro acc; simp
  | cons hd tl ih =>
    intro acc
    rw [List.foldl_cons, List.filter_cons]
    by_cases h : (!hd.lat.isNaN && !hd.lon.isNaN) = true
    · rw [if_pos h, List.map_cons, ih]
      unfold GpxParser.parseStep
      rw [if_pos h]
      simp
    · rw [if_neg h, ih]
      unfold GpxParser.parseStep
      rw [if_neg h]

/-- C2 amended: every point whose latitude or longitude parses as `NaN`
(and only such a point) is skipped without failing the whole parse — the
surviving coordinate list is exactly the non-`NaN` points in order (a point
parsing to `±Infinity` is *retained*, see the counterexample) — and the
concrete document with 3 valid points and 1 non-numeric latitude yields
exactly 3 coordinates with bounds computed only from those 3. -/
theorem claim_C2_amended :
    (∀ (doc : GpxParser.GPXDoc) (out : GpxParser.ParsedGPX),
      GpxParser.parseGPX doc = some out →
      out.coordinates =
        ((GpxParser.docPoints doc).filter
          (fun p => !p.lat.isNaN && !p.lon.isNaN)).map (fun p => (p.lon, p.lat))) ∧
    (GpxParser.parseGPX docC2).map
        (fun out => (out.coordinates, out.bounds.north, out.bounds.south,
          out.bounds.east, out.bounds.west)) =
      some ([(.fin 2.1, .fin 48.1), (.fin 2.2, .fin 48.2), (.fin 2.05, .fin 48.3)],
        .fin 48.3, .fin 48.1, .fin 2.2, .fin 2.05) := by
  constructor
  · intro doc out h
    unfold GpxParser.parseGPX at h
    have hcoords : (GpxParser.parseCoordsScan doc).1 =
        ((GpxParser.docPoints doc).filter
          (fun p => !p.lat.isNaN && !p.lon.isNaN)).map (fun p => (p.lon, p.lat)) := by
      have := parseScan_coords (GpxParser.docPoints doc)
        ([], .inf, .negInf, .inf, .negInf)
      rw [List.nil_append] at this
      exact this
    split_ifs at h
    have h4 := Option.some.inj h
    subst h4
    exact hcoords
  · have hscan : GpxParser.parseCoordsScan docC2 =
        ([(.fin 2.1, .fin 48.1), (.fin 2.2, .fin 48.2), (.fin 2.05, .fin 48.3)],
         .fin 48.1, .fin 48.3, .fin 2.05, .fin 2.2) := by
      norm_num [GpxParser.parseCoordsScan, GpxParser.docPoints, docC2,
        List.foldl_cons, List.foldl_nil, GpxParser.parseStep,
        GpxParser.JSNum.isNaN, GpxParser.JSNum.min, GpxParser.JSNum.max,
        min_def, max_def]
    simp only [GpxParser.parseGPX]
    rw [hscan]
    simp [docC2]

/-- C2 counterexample: a point whose latitude attribute parses to
`Infinity` — a value that is *not finite* — is not skipped: its coordinate
appears in the parsed route (the claim would demand a single surviving
coordinate). -/
theorem claim_C2_counterexample :
    (GpxParser.parseGPX docInfC2).map (fun out => out.coordinates) =
        some [(.fin 2.1, .fin 48.1), (.fin 2.2, .inf)] ∧
      ¬(GpxParser.parseGPX docInfC2).map (fun out => out.coordinates.length) =
        some 1 := by
  refine ⟨rfl, fun h => ?_⟩
  have h2 : (GpxParser.parseGPX docInfC2).map (fun out => out.coordinates.length) =
      some 2 := rfl
  rw [h2] at h
  simp at h

/-- Witness for C2 amended at the concrete `Infinity` document. -/
theorem claim_C2_witness :
    (GpxParser.parseGPX docInfC2).map (fun out => out.coordinates) =
      some (((GpxParser.docPoints docInfC2).filter
        (fun p => !p.lat.isNaN && !p.lon.isNaN)).map (fun p => (p.lon, p.lat))) := by
  have hout : GpxParser.parseGPX docInfC2 =
      some { name := none
             coordinates := [(.fin 2.1, .fin 48.1), (.fin 2.2, .inf)]
             bounds :=
               { north := .inf, south := .fin 48.1,
                 east := .fin (Max.max 2.1 2.2), west := .fin (Min.min 2.1 2.2) }
             totalDistance := .nan } := rfl
  rw [hout, Option.map_some']
  exact congrArg some (claim_C2_amended.1 docInfC2 _ hout)

/-- C4: on a cache miss, when the remote fetch fails (transport error or
non-success status) or the response body is malformed, `findWaterPoints`
returns the empty list — the `try/catch` converts every thrown error into
`[]` instead of propagating it. -/
theorem claim_C4 (numStr : ℝ → String) (store : CacheManager.Store (List WaterPoint))
    (now : ℤ) (fetchOutcome : FetchOutcome) (gpxData : GPXData) (bufferDistance : ℝ)
    (filterPreset : String)
    (hmiss : (CacheManager.get store
      (fullCacheKey numStr gpxData.bounds bufferDistance filterPreset) now).1 = none)
    (hfail : fetchOutcome.fails) :
    (findWaterPoints numStr store now fetchOutcome gpxData bufferDistance
      filterPreset).1 = [] := by
  simp only [findWaterPoints]
  rcases hg : CacheManager.get store
    (fullCacheKey numStr gpxData.bounds bufferDistance filterPreset) now with ⟨o, store1⟩
  rw [hg] at hmiss
  obtain rfl : o = none := hmiss
  cases fetchOutcome with
  | transportError => rfl
  | response ok body =>
    cases body with
    | malformed => cases ok <;> rfl
    | parsed elementsOpt =>
      have hok : ok = false := hfail
      subst hok
      rfl

/-- Witness for C4: empty cache, transport error, any route — the result is
the empty list. -/
theorem claim_C4_witness :
    (findWaterPoints (fun _ => "q") [] 0 .transportError gpxC8 15
      "potable-only").1 = [] :=
  claim_C4 (fun _ => "q") [] 0 .transportError gpxC8 15 "potable-only" rfl trivial

/-- An accepted `processWaterPoint` result carries the element's raw
coordinates verbatim. -/
theorem processWaterPoint_latlon {element : OsmElement} {gpxData : GPXData}
    {bufferDistance : ℝ} {preset : WaterFilterPreset} {wp : WaterPoint}
    (h : processWaterPoint element gpxData bufferDistance preset = some wp) :
    wp.lat = element.lat ∧ wp.lon = element.lon := by
  simp only [processWaterPoint] at h
  split_ifs at h
  have h4 := Option.some.inj h
  rw [← h4]
  exact ⟨rfl, rfl⟩

/-- C8: on the fetch path (cache miss, successful response), every water
point in `findWaterPoints`'s result has non-zero latitude and longitude:
an element whose `lat` or `lon` equals `0` is screened out by the truthiness
check `element.lat && element.lon` before classification and filtering, so
it is never included, regardless of its tags or distance. -/
theorem claim_C8 (numStr : ℝ → String) (store : CacheManager.Store (List WaterPoint))
    (now : ℤ) (elements : List OsmElement) (gpxData : GPXData) (bufferDistance : ℝ)
    (filterPreset : String) (wp : WaterPoint)
    (hmiss : (CacheManager.get store
      (fullCacheKey numStr gpxData.bounds bufferDistance filterPreset) now).1 = none)
    (hmem : wp ∈ (findWaterPoints numStr store now
      (.response true (.parsed (some elements))) gpxData bufferDistance
      filterPreset).1) :
    wp.lat ≠ 0 ∧ wp.lon ≠ 0 := by
  simp only [findWaterPoints] at hmem
  rcases hg : CacheManager.get store
    (fullCacheKey numStr gpxData.bounds bufferDistance filterPreset) now with ⟨o, store1⟩
  rw [hg] at hmiss
  obtain rfl : o = none := hmiss
  rw [hg] at hmem
  have hmem2 : wp ∈ collectWaterPoints elements gpxData bufferDistance
      (presetLookup filterPreset) := by
    have h3 : wp ∈ sortByDistanceFromStart (collectWaterPoints elements gpxData
        bufferDistance (presetLookup filterPreset)) := hmem
    unfold sortByDistanceFromStart at h3
    rw [List.mem_mergeSort] at h3
    exact h3
  unfold collectWaterPoints at hmem2
  obtain ⟨e, hemem, he⟩ := List.mem_filterMap.mp hmem2
  by_cases hc : e.type = "node" ∧ e.lat ≠ 0 ∧ e.lon ≠ 0
  · rw [if_pos hc] at he
    obtain ⟨hlat, hlon⟩ := processWaterPoint_latlon he
    exact ⟨hlat ▸ hc.2.1, hlon ▸ hc.2.2⟩
  · rw [if_neg hc] at he
    exact Option.noConfusion he

/-- The haversine distance of a point to itself is zero. -/
theorem calculateDistance_self (lat lon : ℝ) :
    calculateDistance lat lon lat lon = 0 := by
  rw [calculateDistance_eq]
  have h1 : (lat - lat) * π / 180 / 2 = 0 := by ring
  have h2 : (lon - lon) * π / 180 / 2 = 0 := by ring
  rw [h1, h2, Real.sin_zero]
  have h3 : (0 : ℝ) * 0 + Real.cos (lat * π / 180) * Real.cos (lat * π / 180)
      * 0 * 0 = 0 := by ring
  rw [h3, Real.sqrt_zero]
  norm_num [atan2, Real.sqrt_one, Real.arctan_zero]

/-- The vertex minimum distance of `gpxC8`'s own vertex is zero. -/
theorem minDist_C8 : calculateMinDistanceFromRoute 48 2 gpxC8 = ((0 : ℝ) : EReal) := by
  unfold calculateMinDistanceFromRoute gpxC8
  simp only [List.foldl_cons, List.foldl_nil]
  rw [calculateDistance_self]
  exact min_eq_right le_top

/-- `processWaterPoint` accepts `elemC8` on `gpxC8` under the
`all-sources` preset (no rules, zero distance), yielding `wpC8`. -/
theorem processWaterPoint_C8 :
    processWaterPoint elemC8 gpxC8 100 (presetLookup "all-sources") = some wpC8 := by
  have hpre : presetLookup "all-sources" = allSourcesPreset := by decide
  rw [hpre]
  simp only [processWaterPoint, elemC8]
  rw [minDist_C8]
  rw [if_neg (by rw [not_lt, EReal.coe_le_coe_iff]; norm_num)]
  have hd : calculateDistanceFromStart 48 2 gpxC8 = 0 := by
    unfold calculateDistanceFromStart gpxC8
    exact calculateDistance_self 48 2
  norm_num [excludeTagsReject, accessReject, drinkingWaterReject,
    allSourcesPreset, waterPointType, tagsNone, hd, wpC8]
  exact ⟨by decide, by decide⟩

/-- `findWaterPoints` on the one-element response returns `[wpC8]`. -/
theorem findWaterPoints_C8 :
    (findWaterPoints (fun _ => "q") [] 0
      (.response true (.parsed (some [elemC8]))) gpxC8 100 "all-sources").1 =
      [wpC8] := by
  have hcollect : collectWaterPoints [elemC8] gpxC8 100
      (presetLookup "all-sources") = [wpC8] := by
    unfold collectWaterPoints
    rw [List.filterMap_cons]
    rw [if_pos (by refine ⟨rfl, ?_, ?_⟩ <;> norm_num [elemC8])]
    rw [processWaterPoint_C8]
    rfl
  simp only [findWaterPoints]
  rw [show CacheManager.get ([] : CacheManager.Store (List WaterPoint))
      (fullCacheKey (fun _ => "q") gpxC8.bounds 100 "all-sources") 0 =
      (none, ([] : CacheManager.Store (List WaterPoint))) from rfl]
  show sortByDistanceFromStart (collectWaterPoints [elemC8] gpxC8 100
    (presetLookup "all-sources")) = [wpC8]
  rw [hcollect]
  unfold sortByDistanceFromStart
  rw [List.mergeSort_singleton]

/-- Witness for C8: the accepted point `wpC8` is in the result for the
concrete one-element response, and its coordinates are non-zero. -/
theorem claim_C8_witness : wpC8.lat ≠ 0 ∧ wpC8.lon ≠ 0 :=
  claim_C8 (fun _ => "q") [] 0 [elemC8] gpxC8 100 "all-sources" wpC8 rfl
    (by rw [findWaterPoints_C8]; exact List.mem_singleton_self wpC8)

/-- Concave lower bound for `arctan` on `[0, 1]`: `t / 2 ≤ arctan t`. -/
theorem arctan_ge_half (t : ℝ) (h0 : 0 ≤ t) (h1 : t ≤ 1) :
    t / 2 ≤ Real.arctan t := by
  have hcos : (7 : ℝ) / 8 ≤ Real.cos (t / 2) := by
    have h := Real.one_sub_sq_div_two_le_cos (x := t / 2)
    nlinarith
  have hsin : Real.sin (t / 2) ≤ t / 2 := Real.sin_le (by linarith)
  have htan : Real.tan (t / 2) ≤ t := by
    rw [Real.tan_eq_sin_div_cos]
    have hdiv : Real.sin (t / 2) / Real.cos (t / 2) ≤ (t / 2) / (7 / 8) :=
      div_le_div₀ (by linarith) hsin (by norm_num) hcos
    have heq : (t / 2) / ((7 : ℝ) / 8) = 4 * t / 7 := by ring
    rw [heq] at hdiv
    linarith
  have harctan : Real.arctan (Real.tan (t / 2)) = t / 2 :=
    Real.arctan_tan (by nlinarith [Real.pi_gt_three])
      (by nlinarith [Real.pi_gt_three])
  calc t / 2 = Real.arctan (Real.tan (t / 2)) := harctan.symm
    _ ≤ Real.arctan t := Real.arctan_strictMono.monotone htan

/-- Lower bound for the haversine arc formula: whenever the haversine
parameter `a` is at least `7·10⁻⁸` (and at most `1/2`), the resulting
distance is at least 1600 m. -/
theorem haversine_atan2_lb (a : ℝ) (h1 : 7 / 10 ^ 8 ≤ a) (h2 : a ≤ 1 / 2) :
    (1600 : ℝ) ≤ 6371000 * (2 * atan2 (Real.sqrt a) (Real.sqrt (1 - a))) := by
  have ha0 : (0 : ℝ) ≤ a := by nlinarith
  have hx : (0 : ℝ) < Real.sqrt (1 - a) := Real.sqrt_pos.mpr (by linarith)
  unfold atan2
  rw [if_pos hx]
  have htnn : 0 ≤ Real.sqrt a / Real.sqrt (1 - a) :=
    div_nonneg (Real.sqrt_nonneg a) (Real.sqrt_nonneg _)
  have ht1 : Real.sqrt a / Real.sqrt (1 - a) ≤ 1 := by
    rw [div_le_one hx]
    exact Real.sqrt_le_sqrt (by linarith)
  have hsq1 : Real.sqrt (1 - a) ≤ 1 := by
    calc Real.sqrt (1 - a) ≤ Real.sqrt 1 := Real.sqrt_le_sqrt (by linarith)
      _ = 1 := Real.sqrt_one
  have htlb : Real.sqrt a ≤ Real.sqrt a / Real.sqrt (1 - a) := by
    rw [le_div_iff₀ hx]
    exact mul_le_of_le_one_right (Real.sqrt_nonneg a) hsq1
  have hsa : (26 : ℝ) / 100000 ≤ Real.sqrt a :=
    (Real.le_sqrt (by norm_num) ha0).mpr (by nlinarith)
  have harc := arctan_ge_half (Real.sqrt a / Real.sqrt (1 - a)) htnn ht1
  nlinarith [harc, htlb, hsa]

set_option maxHeartbeats 1600000 in
/-- The C1 vertex distance: from latitude 48 at longitude `2 ± 0.05` of the
query point, the haversine distance to (48.00005, 2.05) exceeds 100 m
(in fact 1600 m): the 0.05° longitude gap dominates. -/
theorem calcDist_C1_vertex (lon1 : ℝ)
    (hs : Real.sin ((2.05 - lon1) * π / 180 / 2) *
        Real.sin ((2.05 - lon1) * π / 180 / 2) =
      Real.sin (0.05 * π / 180 / 2) * Real.sin (0.05 * π / 180 / 2)) :
    (100 : ℝ) < calculateDistance 48 lon1 48.00005 2.05 := by
  rw [calculateDistance_eq]
  have hsq : ∀ x y : ℝ, x * x = y * y → ∀ c : ℝ, c * x * x = c * y * y := by
    intro x y h c
    linear_combination c * h
  rw [hsq (Real.sin ((2.05 - lon1) * π / 180 / 2))
    (Real.sin (0.05 * π / 180 / 2)) hs
    (Real.cos (48 * π / 180) * Real.cos (48.00005 * π / 180))]
  have hπl := Real.pi_gt_d6
  have hπu := Real.pi_lt_d6
  set s := Real.sin (0.05 * π / 180 / 2) with hs_def
  set sl := Real.sin ((48.00005 - 48) * π / 180 / 2) with hsl_def
  set c1 := Real.cos (48 * π / 180) with hc1_def
  set c2 := Real.cos (48.00005 * π / 180) with hc2_def
  -- bounds on the angular arguments (all linear in π)
  have hxs_lb : (0.000436332 : ℝ) ≤ 0.05 * π / 180 / 2 := by linarith
  have hxs_ub : (0.05 : ℝ) * π / 180 / 2 ≤ 0.0004363324 := by linarith
  have hxs_nn : (0 : ℝ) ≤ 0.05 * π / 180 / 2 := by linarith
  have hxl_nn : (0 : ℝ) ≤ (48.00005 - 48) * π / 180 / 2 := by linarith
  have hxl_ub : (48.00005 - 48) * π / 180 / 2 ≤ (0.00000044 : ℝ) := by linarith
  -- sine of the longitude half-angle: 0.000436 ≤ s ≤ 0.0004363324
  have hs_lb : (0.000436 : ℝ) ≤ s := by
    have hgt := Real.sin_gt_sub_cube (x := 0.05 * π / 180 / 2)
      (by linarith) (by linarith)
    have hcube : (0.05 * π / 180 / 2) ^ 3 ≤ (0.0004363324 : ℝ) ^ 3 :=
      pow_le_pow_left₀ hxs_nn hxs_ub 3
    rw [← hs_def] at hgt
    nlinarith [hgt, hcube, hxs_lb]
  have hs_ub : s ≤ (0.0004363324 : ℝ) := by
    have hle := Real.sin_le hxs_nn
    rw [← hs_def] at hle
    linarith
  have hs_nn : (0 : ℝ) ≤ s := by linarith
  -- sine of the latitude half-angle: 0 ≤ sl ≤ 4.4·10⁻⁷
  have hsl_ub : sl ≤ (0.00000044 : ℝ) := by
    have hle := Real.sin_le hxl_nn
    rw [← hsl_def] at hle
    linarith
  have hsl_nn : (0 : ℝ) ≤ sl := by
    have h := Real.sin_nonneg_of_nonneg_of_le_pi hxl_nn (by linarith)
    rw [← hsl_def] at h
    exact h
  -- cosine bounds: 0.649 ≤ c1, c2 ≤ 1
  have hc1_lb : (0.649 : ℝ) ≤ c1 := by
    have h := Real.one_sub_sq_div_two_le_cos (x := 48 * π / 180)
    have harg : (48 : ℝ) * π / 180 ≤ 0.8377582 := by linarith
    have harg0 : (0 : ℝ) ≤ 48 * π / 180 := by linarith
    have h2 : ((48 : ℝ) * π / 180) ^ 2 ≤ (0.8377582 : ℝ) ^ 2 :=
      pow_le_pow_left₀ harg0 harg 2
    rw [← hc1_def] at h
    nlinarith [h, h2]
  have hc2_lb : (0.649 : ℝ) ≤ c2 := by
    have h := Real.one_sub_sq_div_two_le_cos (x := 48.00005 * π / 180)
    have harg : (48.00005 : ℝ) * π / 180 ≤ 0.8377591 := by linarith
    have harg0 : (0 : ℝ) ≤ 48.00005 * π / 180 := by linarith
    have h2 : ((48.00005 : ℝ) * π / 180) ^ 2 ≤ (0.8377591 : ℝ) ^ 2 :=
      pow_le_pow_left₀ harg0 harg 2
    rw [← hc2_def] at h
    nlinarith [h, h2]
  have hc1_ub : c1 ≤ 1 := Real.cos_le_one _
  have hc2_ub : c2 ≤ 1 := Real.cos_le_one _
  -- haversine parameter bounds
  have hcc : (0.421201 : ℝ) ≤ c1 * c2 := by nlinarith [hc1_lb, hc2_lb]
  have hss : (0.00000019 : ℝ) ≤ s * s := by nlinarith [hs_lb, hs_nn]
  have hprod : (0.421201 : ℝ) * 0.00000019 ≤ (c1 * c2) * (s * s) :=
    mul_le_mul hcc hss (by norm_num) (by nlinarith [hc1_lb, hc2_lb])
  have hA_lb : (7 : ℝ) / 10 ^ 8 ≤ sl * sl + c1 * c2 * s * s := by
    nlinarith [hprod, mul_self_nonneg sl]
  have hA_ub : sl * sl + c1 * c2 * s * s ≤ 1 / 2 := by
    have h1 : sl * sl ≤ (0.00000044 : ℝ) * 0.00000044 :=
      mul_le_mul hsl_ub hsl_ub hsl_nn (by norm_num)
    have h2 : s * s ≤ (0.0004363324 : ℝ) * 0.0004363324 :=
      mul_le_mul hs_ub hs_ub hs_nn (by norm_num)
    have hcc1 : c1 * c2 ≤ 1 := by nlinarith [hc1_lb, hc2_lb, hc1_ub, hc2_ub]
    have h3 : c1 * c2 * s * s ≤ s * s := by
      nlinarith [mul_nonneg (by linarith : (0 : ℝ) ≤ 1 - c1 * c2)
        (mul_nonneg hs_nn hs_nn)]
    nlinarith [h1, h2, h3]
  have hmain := haversine_atan2_lb (sl * sl + c1 * c2 * s * s) hA_lb hA_ub
  linarith

/-- Distance from the route vertex (lon 2, lat 48) to the C1 record. -/
theorem calcDist_C1_v1 : (100 : ℝ) < calculateDistance 48 2 48.00005 2.05 :=
  calcDist_C1_vertex 2 (by norm_num)

/-- Distance from the route vertex (lon 2.1, lat 48) to the C1 record. -/
theorem calcDist_C1_v2 : (100 : ℝ) < calculateDistance 48 2.1 48.00005 2.05 :=
  calcDist_C1_vertex 2.1 (by
    have h : ((2.05 : ℝ) - 2.1) * π / 180 / 2 = -(0.05 * π / 180 / 2) := by ring
    rw [h, Real.sin_neg]
    ring)

/-- The C1 record's vertex-based distance from the route exceeds the
100 m buffer. -/
theorem minDist_C1 :
    ((100 : ℝ) : EReal) < calculateMinDistanceFromRoute 48.00005 2.05 gpxC1 := by
  unfold calculateMinDistanceFromRoute gpxC1
  simp only [List.foldl_cons, List.foldl_nil]
  rw [lt_min_iff, lt_min_iff]
  exact ⟨⟨EReal.coe_lt_top 100, EReal.coe_lt_coe_iff.mpr calcDist_C1_v1⟩,
    EReal.coe_lt_coe_iff.mpr calcDist_C1_v2⟩

/-- `processWaterPoint` rejects the C1 record at the buffer check. -/
theorem processWaterPoint_C1_none :
    processWaterPoint elemC1 gpxC1 100 potableOnlyPreset = none := by
  simp only [processWaterPoint, elemC1]
  rw [if_pos minDist_C1]

/-- C1 counterexample: the raw record at (48.00005, 2.05) tagged
`amenity=drinking_water, drinking_water=yes`, processed under
`potable-only` with buffer 100 m on the route [(2.0,48.0),(2.1,48.0)], is
*rejected* (`processWaterPoint` returns `null`), contradicting the claimed
acceptance: the stored distance-from-route is the vertex-based minimum,
which is kilometres, not metres. -/
theorem claim_C1_counterexample :
    processWaterPoint elemC1 gpxC1 100 potableOnlyPreset = none :=
  processWaterPoint_C1_none

/-- C1 amended: the record's tags classify it as type `fountain`, but its
vertex-based distance-from-route exceeds the 100 m buffer (both route
vertices are over 100 m away — in fact over 1600 m), so `processWaterPoint`
rejects it at the coarse admission step. -/
theorem claim_C1_amended :
    waterPointType tagsC1 = WaterPointType.fountain ∧
    ((100 : ℝ) : EReal) < calculateMinDistanceFromRoute 48.00005 2.05 gpxC1 ∧
    processWaterPoint elemC1 gpxC1 100 potableOnlyPreset = none :=
  ⟨rfl, minDist_C1, processWaterPoint_C1_none⟩

end Geodrink
